import Mathlib

/-!
Verification of the upload orchestration pipeline of the Cloudinary-Saas
repository (`src/app/api/image-upload/route.ts`): two Next.js POST handlers,
one for image uploads, one for video uploads.  The handlers are embedded
shallowly: external collaborators (multipart decoding, the Cloudinary upload
stream, the Prisma store) are oracles carried in a `World` record, the
handlers are total Lean functions from a `World` (and the identity context)
to a response paired with a trace of the side-effecting calls they issue.
-/

namespace CloudinarySaas

/-- An opaque byte sequence (the `Buffer` obtained from `file.arrayBuffer()`). -/
abbrev Bytes := List Nat

/-- A binary multipart entry (a JS `File`). Only its byte content matters here. -/
structure FileData where
  content : Bytes
deriving Repr, DecidableEq

/-- A multipart form value as JS sees it: `FormDataEntryValue = File | string`. -/
inductive FormValue where
  | fileVal (f : FileData)
  | strVal (s : String)
deriving Repr, DecidableEq

/-- Multipart form data: an ordered list of named entries. -/
abbrev FormData := List (String × FormValue)

/-- `formData.get(key)`: the first entry named `key`, or `null`. -/
def FormData.get (fd : FormData) (k : String) : Option FormValue :=
  (fd.find? (fun p => p.1 == k)).map (fun p => p.2)

/-- JS truthiness of a `FormDataEntryValue | null`: `null` and the empty
string are falsy, a `File` and a non-empty string are truthy.  This is what
the source's `if (!file)` tests (route.ts line 37 / line 126). -/
def jsTruthyForm : Option FormValue → Bool
  | none => false
  | some (.fileVal _) => true
  | some (.strVal s) => !s.isEmpty

/-- Errors that can be thrown inside the handlers' `try` blocks. -/
inductive JsError where
  | parseError (msg : String)
  | typeError (msg : String)
  | uploadError (msg : String)
  | dbError (msg : String)
deriving Repr, DecidableEq

/-- `await file.arrayBuffer()` (route.ts line 43 / line 132): on a `File`
it yields the byte content; on a string value (the cast
`as File | null` is unchecked) the property is `undefined` and the call
throws a `TypeError`. -/
def arrayBuffer : FormValue → Except JsError Bytes
  | .fileVal f => .ok f.content
  | .strVal _ => .error (.typeError "file.arrayBuffer is not a function")

/-- One entry of a Cloudinary transformation directive list. -/
structure TransformationOpt where
  quality : String
  fetch_format : String
deriving Repr, DecidableEq

/-- Options passed to `cloudinary.uploader.upload_stream`. -/
structure UploadOptions where
  resource_type : Option String
  folder : String
  transformation : List TransformationOpt
deriving Repr, DecidableEq

/-- Options of the image handler's upload (route.ts line 52). -/
def imageUploadOptions : UploadOptions :=
  { resource_type := none, folder := "next-cloudinary-uploads", transformation := [] }

/-- Options of the video handler's upload (route.ts lines 138-144). -/
def videoUploadOptions : UploadOptions :=
  { resource_type := some "video", folder := "video-uploads",
    transformation := [{ quality := "auto", fetch_format := "mp4" }] }

/-- The structured result Cloudinary's completion callback delivers
(interface `CloudinaryUploadResult`): a public identifier, a byte size,
an optional duration. -/
structure CloudinaryUploadResult where
  public_id : String
  bytes : Nat
  duration : Option Nat
deriving Repr, DecidableEq

/-- JS `x || 0` on an optional number (route.ts line 162): `undefined`
gives 0; a present value gives itself (a present 0 also gives 0). -/
def jsOrZero : Option Nat → Nat
  | none => 0
  | some n => n

/-- The `data` argument of `prisma.video.create` (route.ts lines 156-163).
`title`, `description` and `originalSize` are the raw form values, stored
verbatim (they are only type-asserted, never converted). -/
structure VideoData where
  title : Option FormValue
  description : Option FormValue
  publicId : String
  originalSize : Option FormValue
  compressedSize : String
  duration : Nat
deriving Repr, DecidableEq

/-- The record the store returns from `create`: a store-assigned id plus
the written data. -/
structure Video where
  id : String
  data : VideoData
deriving Repr, DecidableEq

/-- A JSON response body: an `{error: msg}` object, the image success body
`{publicId: pid}`, or the full video record. -/
inductive ResponseBody where
  | errorMsg (msg : String)
  | publicIdBody (pid : String)
  | videoBody (v : Video)
deriving Repr, DecidableEq

/-- A status-coded JSON response (`NextResponse.json(body, {status})`). -/
structure Response where
  body : ResponseBody
  status : Nat
deriving Repr, DecidableEq

/-- The observable side-effecting calls a handler issues, in order. -/
inductive Event where
  | uploadCall (opts : UploadOptions) (buffer : Bytes)
  | dbCreateCall (d : VideoData)
  | dbDisconnect
deriving Repr, DecidableEq

/-- The three media-service credentials from the process environment;
`none` models an unset variable. -/
structure Env where
  cloudName : Option String
  apiKey : Option String
  apiSecret : Option String
deriving Repr, DecidableEq

/-- JS truthiness of `process.env.X` (a `string | undefined`): unset and
the empty string are falsy. -/
def envPresent : Option String → Bool
  | none => false
  | some s => !s.isEmpty

/-- The external collaborators of one request: the environment, the outcome
of multipart parsing (`request.formData()` may reject), the media service
(the one-shot completion of `upload_stream` as a function of options and
buffer), and the metadata store's `create`. -/
structure World where
  env : Env
  formDataResult : Except JsError FormData
  upload : UploadOptions → Bytes → Except JsError CloudinaryUploadResult
  dbCreate : VideoData → Except JsError Video

/-! ### The Upload Adapter: callback-to-promise bridging

Both handlers wrap `cloudinary.uploader.upload_stream` in
`new Promise((resolve, reject) => ... (error, result) => {
  if (error) reject(error); else resolve(result); } ...)`
(route.ts lines 48-62 and 136-152).  We model the promise as a one-shot
state machine with JS promise semantics: `resolve`/`reject` settle a
pending promise and are no-ops on a settled one. -/

/-- The state of a JS promise: pending, resolved with a value, or
rejected with an error. -/
inductive PromiseState (ε α : Type) where
  | pending
  | resolved (a : α)
  | rejected (e : ε)
deriving Repr, DecidableEq

/-- `resolve(a)`: settles a pending promise; no-op once settled. -/
def PromiseState.resolve : PromiseState ε α → α → PromiseState ε α
  | .pending, a => .resolved a
  | s, _ => s

/-- `reject(e)`: settles a pending promise; no-op once settled. -/
def PromiseState.reject : PromiseState ε α → ε → PromiseState ε α
  | .pending, e => .rejected e
  | s, _ => s

/-- The executor's completion callback (route.ts lines 53-57 / 145-149):
`(error, result) => { if (error) reject(error); else resolve(result); }`,
acting on the promise state. -/
def uploadCallback (st : PromiseState ε α) (error : Option ε) (result : α) :
    PromiseState ε α :=
  match error with
  | some e => st.reject e
  | none => st.resolve result

/-- `await` on a settled promise: the single observed outcome.  A pending
promise has no outcome yet. -/
def awaitOutcome : PromiseState ε α → Option (Except ε α)
  | .pending => none
  | .resolved a => some (.ok a)
  | .rejected e => some (.error e)

/-- The `data` record passed to `prisma.video.create` (route.ts lines
156-163), built from the raw form values and the upload result:
`compressedSize` is `String(result.bytes)` and `duration` is
`result.duration || 0`. -/
def mkVideoData (fd : FormData) (r : CloudinaryUploadResult) : VideoData :=
  { title := FormData.get fd "title",
    description := FormData.get fd "description",
    publicId := r.public_id,
    originalSize := FormData.get fd "originalSize",
    compressedSize := toString r.bytes,
    duration := jsOrZero r.duration }

/-- Whether an event is a metadata-store `create` call. -/
def Event.isDbCreate : Event → Bool
  | .dbCreateCall _ => true
  | _ => false

/-- Whether an event is the store client disconnection. -/
def Event.isDisconnect : Event → Bool
  | .dbDisconnect => true
  | _ => false

/-- Whether an event is a media-service upload call. -/
def Event.isUpload : Event → Bool
  | .uploadCall _ _ => true
  | _ => false

/-! ### The image-upload handler (route.ts lines 20-80)

`POST` authenticates, then inside `try`: parses the form, validates the
`file` field, buffers it, awaits the adapted upload, and returns
`{publicId}`; `catch` maps any thrown error to a fixed 500 body. -/

namespace ImageRoute

/-- The body of the image handler's `try` block (route.ts lines 30-72):
either a response, or the error it threw, together with the trace of
external calls made before completion. -/
def tryBlock (w : World) : Except JsError Response × List Event :=
  match w.formDataResult with
  | .error e => (.error e, [])
  | .ok fd =>
    let file := FormData.get fd "file"
    if jsTruthyForm file = false then
      (.ok { body := .errorMsg "File not found", status := 400 }, [])
    else
      match file with
      | none => (.error (.typeError "unreachable: null is falsy"), [])
      | some v =>
        match arrayBuffer v with
        | .error e => (.error e, [])
        | .ok buffer =>
          match w.upload imageUploadOptions buffer with
          | .error e => (.error e, [.uploadCall imageUploadOptions buffer])
          | .ok result =>
            (.ok { body := .publicIdBody result.public_id, status := 200 },
             [.uploadCall imageUploadOptions buffer])

/-- The image handler `POST`: the identity check (route.ts lines 22-28)
runs before the `try`; the `catch` (lines 74-79) maps any thrown error to
a 500 with body `{error: "Upload image failed"}`. -/
def POST (userId : Option String) (w : World) : Response × List Event :=
  match userId with
  | none => ({ body := .errorMsg "Unauthorized", status := 401 }, [])
  | some _ =>
    match tryBlock w with
    | (.ok r, tr) => (r, tr)
    | (.error _, tr) => ({ body := .errorMsg "Upload image failed", status := 500 }, tr)

end ImageRoute

/-! ### The video-upload handler (route.ts lines 105-178)

`POST` runs entirely inside `try`: credential pre-check, form parsing,
`file` validation, buffering, adapted upload, metadata write, and returns
the stored record; `catch` maps any thrown error to a fixed 500 body and
`finally` disconnects the store client on every path.  The handler never
consults the identity context (`auth` is imported but not called). -/

namespace VideoRoute

/-- The body of the video handler's `try` block (route.ts lines 107-167). -/
def tryBlock (w : World) : Except JsError Response × List Event :=
  if envPresent w.env.cloudName = false ∨ envPresent w.env.apiKey = false ∨
      envPresent w.env.apiSecret = false then
    (.ok { body := .errorMsg "Cloudinary credentials not found", status := 500 }, [])
  else
    match w.formDataResult with
    | .error e => (.error e, [])
    | .ok fd =>
      let file := FormData.get fd "file"
      if jsTruthyForm file = false then
        (.ok { body := .errorMsg "File not found", status := 400 }, [])
      else
        match file with
        | none => (.error (.typeError "unreachable: null is falsy"), [])
        | some v =>
          match arrayBuffer v with
          | .error e => (.error e, [])
          | .ok buffer =>
            match w.upload videoUploadOptions buffer with
            | .error e => (.error e, [.uploadCall videoUploadOptions buffer])
            | .ok result =>
              let d : VideoData := mkVideoData fd result
              match w.dbCreate d with
              | .error e =>
                (.error e,
                 [.uploadCall videoUploadOptions buffer, .dbCreateCall d])
              | .ok video =>
                (.ok { body := .videoBody video, status := 200 },
                 [.uploadCall videoUploadOptions buffer, .dbCreateCall d])

/-- The video handler `POST`: the `catch` (route.ts lines 169-173) maps any
thrown error to a 500 with body `{error: "Upload video failed"}`; the
`finally` (lines 174-177) disconnects the store client on every path.  The
identity context is a parameter of the request but is never consulted. -/
def POST (_userId : Option String) (w : World) : Response × List Event :=
  match tryBlock w with
  | (.ok r, tr) => (r, tr ++ [.dbDisconnect])
  | (.error _, tr) =>
    ({ body := .errorMsg "Upload video failed", status := 500 }, tr ++ [.dbDisconnect])

end VideoRoute

/-! ### Concrete sample oracles, used to exercise the handlers -/

/-- A sample upload result reported by the media service. -/
def sampleResult : CloudinaryUploadResult :=
  { public_id := "video-uploads/abc", bytes := 1024, duration := some 9 }

/-- A media service that always succeeds with `sampleResult`. -/
def okUpload : UploadOptions → Bytes → Except JsError CloudinaryUploadResult :=
  fun _ _ => .ok sampleResult

/-- A media service whose transport always fails. -/
def failUpload : UploadOptions → Bytes → Except JsError CloudinaryUploadResult :=
  fun _ _ => .error (.uploadError "network")

/-- A store whose `create` succeeds, assigning id `rec1`. -/
def okDb : VideoData → Except JsError Video :=
  fun d => .ok { id := "rec1", data := d }

/-- A store whose `create` always throws. -/
def failDb : VideoData → Except JsError Video :=
  fun _ => .error (.dbError "constraint violation")

/-- An environment with all three credentials set. -/
def envAll : Env :=
  { cloudName := some "cloud", apiKey := some "key", apiSecret := some "secret" }

/-- A complete video-path form submission with a binary `file`. -/
def fdFull : FormData :=
  [("file", .fileVal { content := [1, 2, 3] }),
   ("title", .strVal "t"), ("description", .strVal "d"),
   ("originalSize", .strVal "2097152")]

/-- A request world where everything succeeds. -/
def sampleWorld : World :=
  { env := envAll, formDataResult := .ok fdFull, upload := okUpload, dbCreate := okDb }

/-- A request world where the upload transport fails. -/
def wUploadFail : World :=
  { env := envAll, formDataResult := .ok fdFull, upload := failUpload, dbCreate := okDb }

/-- A request world where the metadata write fails. -/
def wDbFail : World :=
  { env := envAll, formDataResult := .ok fdFull, upload := okUpload, dbCreate := failDb }

/-- A request world with one credential unset. -/
def wNoCreds : World :=
  { env := { cloudName := none, apiKey := some "key", apiSecret := some "secret" },
    formDataResult := .ok fdFull, upload := okUpload, dbCreate := okDb }

/-- A request world whose multipart body fails to parse. -/
def wParseFail : World :=
  { env := envAll, formDataResult := .error (.parseError "bad multipart"),
    upload := okUpload, dbCreate := okDb }

/-- A request world whose form data has no `file` entry. -/
def wNoFile : World :=
  { env := envAll, formDataResult := .ok [("title", .strVal "t")],
    upload := okUpload, dbCreate := okDb }

/-- A request world whose `file` entry is a non-empty string, not a binary
payload. -/
def wStrFile : World :=
  { env := envAll, formDataResult := .ok [("file", .strVal "x")],
    upload := okUpload, dbCreate := okDb }

/-! ### Case analyses of the two handlers

Exhaustive characterizations of the handlers' response and trace as a
function of the oracle outcomes; the claim theorems below are derived
from these. -/

/-- Every run of the image handler with identity present falls into exactly
one of five cases: multipart parse failure, falsy `file` entry, string
`file` entry (buffering throws), upload failure, or upload success. -/
theorem imageRoute_cases (uid : String) (w : World) :
    ((∃ e, w.formDataResult = .error e) ∧
       ImageRoute.POST (some uid) w =
         ({ body := .errorMsg "Upload image failed", status := 500 }, [])) ∨
    (∃ fd, w.formDataResult = .ok fd ∧
      ((jsTruthyForm (FormData.get fd "file") = false ∧
         ImageRoute.POST (some uid) w =
           ({ body := .errorMsg "File not found", status := 400 }, [])) ∨
       (∃ s, FormData.get fd "file" = some (.strVal s) ∧ s.isEmpty = false ∧
         ImageRoute.POST (some uid) w =
           ({ body := .errorMsg "Upload image failed", status := 500 }, [])) ∨
       (∃ f, FormData.get fd "file" = some (.fileVal f) ∧
         ((∃ e, w.upload imageUploadOptions f.content = .error e ∧
            ImageRoute.POST (some uid) w =
              ({ body := .errorMsg "Upload image failed", status := 500 },
               [.uploadCall imageUploadOptions f.content])) ∨
          (∃ r, w.upload imageUploadOptions f.content = .ok r ∧
            ImageRoute.POST (some uid) w =
              ({ body := .publicIdBody r.public_id, status := 200 },
               [.uploadCall imageUploadOptions f.content])))))) := by
  cases hfd : w.formDataResult with
  | error e =>
    exact Or.inl ⟨⟨e, rfl⟩, by simp [ImageRoute.POST, ImageRoute.tryBlock, hfd]⟩
  | ok fd =>
    refine Or.inr ⟨fd, rfl, ?_⟩
    cases hfile : FormData.get fd "file" with
    | none =>
      refine Or.inl ⟨by simp [hfile, jsTruthyForm], ?_⟩
      simp [ImageRoute.POST, ImageRoute.tryBlock, hfd, hfile, jsTruthyForm]
    | some v =>
      cases v with
      | strVal s =>
        cases hs : s.isEmpty with
        | true =>
          refine Or.inl ⟨by simp [hfile, jsTruthyForm, hs], ?_⟩
          simp [ImageRoute.POST, ImageRoute.tryBlock, hfd, hfile, jsTruthyForm, hs]
        | false =>
          refine Or.inr (Or.inl ⟨s, rfl, hs, ?_⟩)
          simp [ImageRoute.POST, ImageRoute.tryBlock, hfd, hfile, jsTruthyForm, hs,
            arrayBuffer]
      | fileVal f =>
        refine Or.inr (Or.inr ⟨f, rfl, ?_⟩)
        cases hup : w.upload imageUploadOptions f.content with
        | error e =>
          refine Or.inl ⟨e, rfl, ?_⟩
          simp [ImageRoute.POST, ImageRoute.tryBlock, hfd, hfile, jsTruthyForm,
            arrayBuffer, hup]
        | ok r =>
          refine Or.inr ⟨r, rfl, ?_⟩
          simp [ImageRoute.POST, ImageRoute.tryBlock, hfd, hfile, jsTruthyForm,
            arrayBuffer, hup]

/-- Every run of the video handler falls into exactly one of seven cases:
missing credentials, multipart parse failure, falsy `file` entry, string
`file` entry (buffering throws), upload failure, metadata-write failure,
or full success. -/
theorem videoRoute_cases (u : Option String) (w : World) :
    ((envPresent w.env.cloudName = false ∨ envPresent w.env.apiKey = false ∨
        envPresent w.env.apiSecret = false) ∧
      VideoRoute.POST u w =
        ({ body := .errorMsg "Cloudinary credentials not found", status := 500 },
         [.dbDisconnect])) ∨
    (envPresent w.env.cloudName = true ∧ envPresent w.env.apiKey = true ∧
      envPresent w.env.apiSecret = true ∧
      (((∃ e, w.formDataResult = .error e) ∧
         VideoRoute.POST u w =
           ({ body := .errorMsg "Upload video failed", status := 500 },
            [.dbDisconnect])) ∨
       (∃ fd, w.formDataResult = .ok fd ∧
         ((jsTruthyForm (FormData.get fd "file") = false ∧
            VideoRoute.POST u w =
              ({ body := .errorMsg "File not found", status := 400 },
               [.dbDisconnect])) ∨
          (∃ s, FormData.get fd "file" = some (.strVal s) ∧ s.isEmpty = false ∧
            VideoRoute.POST u w =
              ({ body := .errorMsg "Upload video failed", status := 500 },
               [.dbDisconnect])) ∨
          (∃ f, FormData.get fd "file" = some (.fileVal f) ∧
            ((∃ e, w.upload videoUploadOptions f.content = .error e ∧
               VideoRoute.POST u w =
                 ({ body := .errorMsg "Upload video failed", status := 500 },
                  [.uploadCall videoUploadOptions f.content, .dbDisconnect])) ∨
             (∃ r, w.upload videoUploadOptions f.content = .ok r ∧
               ((∃ e, w.dbCreate (mkVideoData fd r) = .error e ∧
                  VideoRoute.POST u w =
                    ({ body := .errorMsg "Upload video failed", status := 500 },
                     [.uploadCall videoUploadOptions f.content,
                      .dbCreateCall (mkVideoData fd r), .dbDisconnect])) ∨
                (∃ v, w.dbCreate (mkVideoData fd r) = .ok v ∧
                  VideoRoute.POST u w =
                    ({ body := .videoBody v, status := 200 },
                     [.uploadCall videoUploadOptions f.content,
                      .dbCreateCall (mkVideoData fd r), .dbDisconnect]))))))))))  := by
  cases h1 : envPresent w.env.cloudName with
  | false =>
    refine Or.inl ⟨Or.inl rfl, ?_⟩
    simp [VideoRoute.POST, VideoRoute.tryBlock, h1]
  | true =>
  cases h2 : envPresent w.env.apiKey with
  | false =>
    refine Or.inl ⟨Or.inr (Or.inl rfl), ?_⟩
    simp [VideoRoute.POST, VideoRoute.tryBlock, h2]
  | true =>
  cases h3 : envPresent w.env.apiSecret with
  | false =>
    refine Or.inl ⟨Or.inr (Or.inr rfl), ?_⟩
    simp [VideoRoute.POST, VideoRoute.tryBlock, h3]
  | true =>
  refine Or.inr ⟨rfl, rfl, rfl, ?_⟩
  cases hfd : w.formDataResult with
  | error e =>
    exact Or.inl ⟨⟨e, rfl⟩,
      by simp [VideoRoute.POST, VideoRoute.tryBlock, h1, h2, h3, hfd]⟩
  | ok fd =>
    refine Or.inr ⟨fd, rfl, ?_⟩
    cases hfile : FormData.get fd "file" with
    | none =>
      refine Or.inl ⟨by simp [hfile, jsTruthyForm], ?_⟩
      simp [VideoRoute.POST, VideoRoute.tryBlock, h1, h2, h3, hfd, hfile, jsTruthyForm]
    | some v =>
      cases v with
      | strVal s =>
        cases hs : s.isEmpty with
        | true =>
          refine Or.inl ⟨by simp [hfile, jsTruthyForm, hs], ?_⟩
          simp [VideoRoute.POST, VideoRoute.tryBlock, h1, h2, h3, hfd, hfile,
            jsTruthyForm, hs]
        | false =>
          refine Or.inr (Or.inl ⟨s, rfl, hs, ?_⟩)
          simp [VideoRoute.POST, VideoRoute.tryBlock, h1, h2, h3, hfd, hfile,
            jsTruthyForm, hs, arrayBuffer]
      | fileVal f =>
        refine Or.inr (Or.inr ⟨f, rfl, ?_⟩)
        cases hup : w.upload videoUploadOptions f.content with
        | error e =>
          refine Or.inl ⟨e, rfl, ?_⟩
          simp [VideoRoute.POST, VideoRoute.tryBlock, h1, h2, h3, hfd, hfile,
            jsTruthyForm, arrayBuffer, hup]
        | ok r =>
          refine Or.inr ⟨r, rfl, ?_⟩
          cases hdb : w.dbCreate (mkVideoData fd r) with
          | error e =>
            refine Or.inl ⟨e, rfl, ?_⟩
            simp [VideoRoute.POST, VideoRoute.tryBlock, h1, h2, h3, hfd, hfile,
              jsTruthyForm, arrayBuffer, hup, hdb]
          | ok v =>
            refine Or.inr ⟨v, rfl, ?_⟩
            simp [VideoRoute.POST, VideoRoute.tryBlock, h1, h2, h3, hfd, hfile,
              jsTruthyForm, arrayBuffer, hup, hdb]

/-! ### Claim theorems -/

/-- C1: every invocation of the Upload Adapter's completion callback on the
pending promise settles it exactly once: the awaited operation has an
outcome (no silent drop), that outcome is rejection with the callback's
error when one is passed and resolution with the callback's result
otherwise, and a further callback invocation leaves the settled state
unchanged (no resolving twice). -/
theorem adapter_exactly_once (err : Option JsError) (res : CloudinaryUploadResult) :
    awaitOutcome (uploadCallback (.pending) err res) ≠ none ∧
    (∀ e, err = some e →
      awaitOutcome (uploadCallback (.pending) err res) = some (.error e)) ∧
    (err = none →
      awaitOutcome (uploadCallback (.pending) err res) = some (.ok res)) ∧
    (∀ err2 res2,
      uploadCallback (uploadCallback (.pending) err res) err2 res2 =
        uploadCallback (.pending) err res) := by
  refine ⟨?_, ?_, ?_, ?_⟩
  · cases err <;>
      simp [uploadCallback, PromiseState.resolve, PromiseState.reject, awaitOutcome]
  · intro e he
    subst he
    simp [uploadCallback, PromiseState.reject, awaitOutcome]
  · intro he
    subst he
    simp [uploadCallback, PromiseState.resolve, awaitOutcome]
  · intro err2 res2
    cases err <;> cases err2 <;>
      simp [uploadCallback, PromiseState.resolve, PromiseState.reject]

/-- C1 witness: at a concrete error, the adapted operation fails exactly
with that error. -/
theorem adapter_exactly_once_witness :
    awaitOutcome
        (uploadCallback (.pending) (some (JsError.uploadError "network"))
          sampleResult) =
      some (.error (JsError.uploadError "network")) :=
  (adapter_exactly_once (some (JsError.uploadError "network")) sampleResult).2.1
    (JsError.uploadError "network") rfl

/-- C5: an image-path request with no identity is answered 401 with body
`{error: "Unauthorized"}`, and the trace is empty: no upload call, no
persistence call, no other side effect (the response does not depend on any
oracle of the request world, so not even the multipart body is examined). -/
theorem image_unauthorized (w : World) :
    ImageRoute.POST none w =
      ({ body := .errorMsg "Unauthorized", status := 401 }, []) := rfl

/-- C9: the video handler performs no identity check: its result is
identical for any two identity contexts over the same world, and its
status is never 401. -/
theorem video_no_identity_check (u1 u2 : Option String) (w : World) :
    VideoRoute.POST u1 w = VideoRoute.POST u2 w ∧
    (VideoRoute.POST u1 w).1.status ≠ 401 := by
  refine ⟨rfl, ?_⟩
  rcases videoRoute_cases u1 w with ⟨-, h⟩ | ⟨-, -, -, hrest⟩
  · simp [h]
  · rcases hrest with ⟨-, h⟩ | ⟨fd, -, hrest⟩
    · simp [h]
    · rcases hrest with ⟨-, h⟩ | ⟨s, -, -, h⟩ | ⟨f, -, hrest⟩
      · simp [h]
      · simp [h]
      · rcases hrest with ⟨e, -, h⟩ | ⟨r, -, hrest⟩
        · simp [h]
        · rcases hrest with ⟨e, -, h⟩ | ⟨v, -, h⟩ <;> simp [h]

/-- C9 witness: over the all-success sample world, an authenticated and an
anonymous request get the same result, and the status is not 401. -/
theorem video_no_identity_check_witness :
    VideoRoute.POST (some "user") sampleWorld = VideoRoute.POST none sampleWorld ∧
    (VideoRoute.POST (some "user") sampleWorld).1.status ≠ 401 :=
  video_no_identity_check (some "user") none sampleWorld

/-- C7: on the video path, a missing (or empty) credential among the three
is answered 500 with body `{error: "Cloudinary credentials not found"}`
before any upload attempt (the trace holds only the store disconnection);
the image path performs no such pre-check: its outcome is invariant under
any change of the environment, and it never produces that body. -/
theorem video_creds_precheck (u : Option String) (w : World)
    (h : envPresent w.env.cloudName = false ∨ envPresent w.env.apiKey = false ∨
      envPresent w.env.apiSecret = false) :
    VideoRoute.POST u w =
      ({ body := .errorMsg "Cloudinary credentials not found", status := 500 },
       [.dbDisconnect]) ∧
    (∀ o b, Event.uploadCall o b ∉ (VideoRoute.POST u w).2) ∧
    (∀ uid e1 e2 fdr up db,
      ImageRoute.POST uid { env := e1, formDataResult := fdr, upload := up, dbCreate := db } =
        ImageRoute.POST uid { env := e2, formDataResult := fdr, upload := up, dbCreate := db }) ∧
    (∀ uid w2, (ImageRoute.POST uid w2).1.body ≠
      ResponseBody.errorMsg "Cloudinary credentials not found") := by
  have heq : VideoRoute.POST u w =
      ({ body := .errorMsg "Cloudinary credentials not found", status := 500 },
       [.dbDisconnect]) := by
    unfold VideoRoute.POST VideoRoute.tryBlock
    rw [if_pos h]
    rfl
  refine ⟨heq, ?_, ?_, ?_⟩
  · intro o b
    simp [heq]
  · intro uid e1 e2 fdr up db
    rfl
  · intro uid w2
    cases uid with
    | none => simp [ImageRoute.POST]
    | some s =>
      rcases imageRoute_cases s w2 with ⟨-, h2⟩ | ⟨fd, -, hrest⟩
      · simp [h2]
      · rcases hrest with ⟨-, h2⟩ | ⟨t, -, -, h2⟩ | ⟨f, -, ⟨e, -, h2⟩ | ⟨r, -, h2⟩⟩ <;>
          simp [h2]

/-- C7 witness: with the cloud name unset, the video handler reports the
missing credentials without attempting an upload. -/
theorem video_creds_precheck_witness :
    VideoRoute.POST none wNoCreds =
      ({ body := .errorMsg "Cloudinary credentials not found", status := 500 },
       [.dbDisconnect]) :=
  (video_creds_precheck none wNoCreds (Or.inl rfl)).1

/-- C2: on the video path, a metadata-store create call appears in the
trace only with a successful upload call strictly before it (the trace is
sequential, so the two never overlap); and whenever an upload call was made
whose outcome is an error, no create call appears and the status is 500. -/
theorem video_upload_before_persist (u : Option String) (w : World) :
    (∀ d, Event.dbCreateCall d ∈ (VideoRoute.POST u w).2 →
      ∃ b r, w.upload videoUploadOptions b = .ok r ∧
        (VideoRoute.POST u w).2 =
          [.uploadCall videoUploadOptions b, .dbCreateCall d, .dbDisconnect]) ∧
    (∀ b e, Event.uploadCall videoUploadOptions b ∈ (VideoRoute.POST u w).2 →
      w.upload videoUploadOptions b = .error e →
      (∀ d, Event.dbCreateCall d ∉ (VideoRoute.POST u w).2) ∧
      (VideoRoute.POST u w).1.status = 500) := by
  rcases videoRoute_cases u w with ⟨-, h⟩ | ⟨-, -, -,
      ⟨-, h⟩ | ⟨fd, hfd,
        ⟨hfalsy, h⟩ | ⟨s, hstr, -, h⟩ | ⟨f, hfile,
          ⟨e0, he0, h⟩ | ⟨r, hr, ⟨e1, he1, h⟩ | ⟨v, hv, h⟩⟩⟩⟩⟩
  · exact ⟨by simp [h], by simp [h]⟩
  · exact ⟨by simp [h], by simp [h]⟩
  · exact ⟨by simp [h], by simp [h]⟩
  · exact ⟨by simp [h], by simp [h]⟩
  · constructor
    · intro d hd
      simp [h] at hd
    · intro b e hb _
      simp [h] at hb
      subst hb
      exact ⟨by simp [h], by simp [h]⟩
  · constructor
    · intro d hd
      simp [h] at hd
      subst hd
      exact ⟨f.content, r, hr, by simp [h]⟩
    · intro b e hb hbe
      simp [h] at hb
      subst hb
      rw [hr] at hbe
      simp at hbe
  · constructor
    · intro d hd
      simp [h] at hd
      subst hd
      exact ⟨f.content, r, hr, by simp [h]⟩
    · intro b e hb hbe
      simp [h] at hb
      subst hb
      rw [hr] at hbe
      simp at hbe

/-- C2 witness: with a failing transport, the upload call is in the trace,
no create call is, and the status is 500. -/
theorem video_upload_before_persist_witness :
    (∀ d, Event.dbCreateCall d ∉ (VideoRoute.POST none wUploadFail).2) ∧
    (VideoRoute.POST none wUploadFail).1.status = 500 :=
  (video_upload_before_persist none wUploadFail).2 [1, 2, 3]
    (JsError.uploadError "network") (by decide) rfl

/-- C3: a successful video upload creates exactly one metadata record whose
title, description and originalSize are the caller's form values verbatim,
whose compressedSize is the decimal string of the service's byte count,
whose duration is the service's duration or 0 when absent, and the 200
response body is the full stored record. -/
theorem video_success_record (u : Option String) (w : World) (fd : FormData)
    (f : FileData) (r : CloudinaryUploadResult) (v : Video)
    (h1 : envPresent w.env.cloudName = true) (h2 : envPresent w.env.apiKey = true)
    (h3 : envPresent w.env.apiSecret = true)
    (hfd : w.formDataResult = .ok fd)
    (hfile : FormData.get fd "file" = some (.fileVal f))
    (hup : w.upload videoUploadOptions f.content = .ok r)
    (hdb : w.dbCreate (mkVideoData fd r) = .ok v) :
    VideoRoute.POST u w =
      ({ body := .videoBody v, status := 200 },
       [.uploadCall videoUploadOptions f.content,
        .dbCreateCall (mkVideoData fd r), .dbDisconnect]) ∧
    (VideoRoute.POST u w).2.countP Event.isDbCreate = 1 ∧
    (mkVideoData fd r).title = FormData.get fd "title" ∧
    (mkVideoData fd r).description = FormData.get fd "description" ∧
    (mkVideoData fd r).originalSize = FormData.get fd "originalSize" ∧
    (mkVideoData fd r).compressedSize = toString r.bytes ∧
    (r.duration = none → (mkVideoData fd r).duration = 0) ∧
    (∀ n, r.duration = some n → (mkVideoData fd r).duration = n) := by
  have heq : VideoRoute.POST u w =
      ({ body := .videoBody v, status := 200 },
       [.uploadCall videoUploadOptions f.content,
        .dbCreateCall (mkVideoData fd r), .dbDisconnect]) := by
    simp [VideoRoute.POST, VideoRoute.tryBlock, h1, h2, h3, hfd, hfile,
      jsTruthyForm, arrayBuffer, hup, hdb]
  refine ⟨heq, ?_, rfl, rfl, rfl, rfl, ?_, ?_⟩
  · rw [heq]
    rfl
  · intro hd
    simp [mkVideoData, jsOrZero, hd]
  · intro n hd
    simp [mkVideoData, jsOrZero, hd]

/-- C3 witness: over the all-success sample world, the response is the
stored record built from the sample form and the sample upload result. -/
theorem video_success_record_witness :
    VideoRoute.POST none sampleWorld =
      ({ body := .videoBody { id := "rec1", data := mkVideoData fdFull sampleResult },
         status := 200 },
       [.uploadCall videoUploadOptions [1, 2, 3],
        .dbCreateCall (mkVideoData fdFull sampleResult), .dbDisconnect]) :=
  (video_success_record none sampleWorld fdFull { content := [1, 2, 3] }
    sampleResult { id := "rec1", data := mkVideoData fdFull sampleResult }
    rfl rfl rfl rfl rfl rfl rfl).1

/-- C4: the video handler's trace ends with the store disconnection on
every exit path, exactly once; and when the metadata write fails after a
successful upload, the client is still disconnected and the status is
500. -/
theorem video_disconnect_every_path (u : Option String) (w : World) :
    (VideoRoute.POST u w).2.getLast? = some Event.dbDisconnect ∧
    (VideoRoute.POST u w).2.countP Event.isDisconnect = 1 ∧
    (∀ fd f r e, w.formDataResult = .ok fd →
      FormData.get fd "file" = some (.fileVal f) →
      w.upload videoUploadOptions f.content = .ok r →
      w.dbCreate (mkVideoData fd r) = .error e →
      Event.dbDisconnect ∈ (VideoRoute.POST u w).2 ∧
      (VideoRoute.POST u w).1.status = 500) := by
  rcases videoRoute_cases u w with ⟨-, h⟩ | ⟨-, -, -,
      ⟨-, h⟩ | ⟨fd, hfd,
        ⟨hfalsy, h⟩ | ⟨s, hstr, -, h⟩ | ⟨f, hfile,
          ⟨e0, he0, h⟩ | ⟨r, hr, ⟨e1, he1, h⟩ | ⟨v, hv, h⟩⟩⟩⟩⟩
  all_goals refine ⟨by simp [h], by simp [h, Event.isDisconnect], ?_⟩
  all_goals intro fd2 f2 r2 e2 hfd2 hfile2 hup2 hdb2
  · exact ⟨by simp [h], by simp [h]⟩
  · exact ⟨by simp [h], by simp [h]⟩
  · rw [hfd] at hfd2
    injection hfd2 with he
    subst he
    rw [hfile2] at hfalsy
    simp [jsTruthyForm] at hfalsy
  · rw [hfd] at hfd2
    injection hfd2 with he
    subst he
    rw [hstr] at hfile2
    simp at hfile2
  · rw [hfd] at hfd2
    injection hfd2 with he
    subst he
    rw [hfile] at hfile2
    simp only [Option.some.injEq, FormValue.fileVal.injEq] at hfile2
    subst hfile2
    rw [he0] at hup2
    simp at hup2
  · exact ⟨by simp [h], by simp [h]⟩
  · rw [hfd] at hfd2
    injection hfd2 with he
    subst he
    rw [hfile] at hfile2
    simp only [Option.some.injEq, FormValue.fileVal.injEq] at hfile2
    subst hfile2
    rw [hr] at hup2
    simp only [Except.ok.injEq] at hup2
    subst hup2
    rw [hv] at hdb2
    simp at hdb2

/-- C4 witness: with a failing store, after the successful sample upload
the client is disconnected and the status is 500. -/
theorem video_disconnect_every_path_witness :
    Event.dbDisconnect ∈ (VideoRoute.POST none wDbFail).2 ∧
    (VideoRoute.POST none wDbFail).1.status = 500 :=
  (video_disconnect_every_path none wDbFail).2.2 fdFull { content := [1, 2, 3] }
    sampleResult (JsError.dbError "constraint violation") rfl rfl rfl rfl

/-- C10: past the image path's identity check and unconditionally on the
video path, any error thrown inside the try block (malformed multipart
body, non-binary file value, upload failure, persistence failure) is
caught and mapped to status 500 with the fixed body, and every execution
yields one of the enumerated JSON responses — nothing escapes as an
exception. -/
theorem handlers_catch_errors (uid : String) (u : Option String) (w : World) :
    ((∃ e tr, ImageRoute.tryBlock w = (.error e, tr)) →
      (ImageRoute.POST (some uid) w).1 =
        { body := .errorMsg "Upload image failed", status := 500 }) ∧
    ((∃ e tr, VideoRoute.tryBlock w = (.error e, tr)) →
      (VideoRoute.POST u w).1 =
        { body := .errorMsg "Upload video failed", status := 500 }) ∧
    ((ImageRoute.POST (some uid) w).1 =
        { body := .errorMsg "File not found", status := 400 } ∨
     (ImageRoute.POST (some uid) w).1 =
        { body := .errorMsg "Upload image failed", status := 500 } ∨
     (∃ pid, (ImageRoute.POST (some uid) w).1 =
        { body := .publicIdBody pid, status := 200 })) ∧
    ((VideoRoute.POST u w).1 =
        { body := .errorMsg "Cloudinary credentials not found", status := 500 } ∨
     (VideoRoute.POST u w).1 =
        { body := .errorMsg "File not found", status := 400 } ∨
     (VideoRoute.POST u w).1 =
        { body := .errorMsg "Upload video failed", status := 500 } ∨
     (∃ v, (VideoRoute.POST u w).1 =
        { body := .videoBody v, status := 200 })) := by
  refine ⟨?_, ?_, ?_, ?_⟩
  · rintro ⟨e, tr, h⟩
    simp [ImageRoute.POST, h]
  · rintro ⟨e, tr, h⟩
    simp [VideoRoute.POST, h]
  · rcases imageRoute_cases uid w with ⟨-, h⟩ | ⟨fd, -,
        ⟨-, h⟩ | ⟨s, -, -, h⟩ | ⟨f, -, ⟨e, -, h⟩ | ⟨r, -, h⟩⟩⟩
    · exact Or.inr (Or.inl (by simp [h]))
    · exact Or.inl (by simp [h])
    · exact Or.inr (Or.inl (by simp [h]))
    · exact Or.inr (Or.inl (by simp [h]))
    · exact Or.inr (Or.inr ⟨r.public_id, by simp [h]⟩)
  · rcases videoRoute_cases u w with ⟨-, h⟩ | ⟨-, -, -,
        ⟨-, h⟩ | ⟨fd, -,
          ⟨-, h⟩ | ⟨s, -, -, h⟩ | ⟨f, -,
            ⟨e, -, h⟩ | ⟨r, -, ⟨e, -, h⟩ | ⟨v, -, h⟩⟩⟩⟩⟩
    · exact Or.inl (by simp [h])
    · exact Or.inr (Or.inr (Or.inl (by simp [h])))
    · exact Or.inr (Or.inl (by simp [h]))
    · exact Or.inr (Or.inr (Or.inl (by simp [h])))
    · exact Or.inr (Or.inr (Or.inl (by simp [h])))
    · exact Or.inr (Or.inr (Or.inl (by simp [h])))
    · exact Or.inr (Or.inr (Or.inr ⟨v, by simp [h]⟩))

/-- C10 witness: a malformed multipart body is caught and mapped to the
fixed 500 body on both paths. -/
theorem handlers_catch_errors_witness :
    (ImageRoute.POST (some "user") wParseFail).1 =
      { body := .errorMsg "Upload image failed", status := 500 } ∧
    (VideoRoute.POST none wParseFail).1 =
      { body := .errorMsg "Upload video failed", status := 500 } :=
  ⟨(handlers_catch_errors "user" none wParseFail).1
      ⟨JsError.parseError "bad multipart", [], rfl⟩,
   (handlers_catch_errors "user" none wParseFail).2.1
      ⟨JsError.parseError "bad multipart", [], rfl⟩⟩

/-- C6 counterexample: a request with no identity and no `file` field is
answered 401 by the image handler — not 400 as the claim states for every
request with no `file` field on either path. -/
theorem no_file_field_counterexample :
    wNoFile.formDataResult = .ok [("title", .strVal "t")] ∧
    FormData.get [("title", .strVal "t")] "file" = none ∧
    (ImageRoute.POST none wNoFile).1.status = 401 ∧
    ¬ (ImageRoute.POST none wNoFile).1.status = 400 :=
  ⟨rfl, rfl, rfl, by decide⟩

/-- C6 amended: a request whose form data parses and contains no `file`
field is answered 400 with body `{error: "File not found"}` and no upload
call, provided the handler's earlier checks pass: identity present on the
image path, credentials present on the video path. -/
theorem no_file_field_400 (uid : String) (u : Option String) (w : World)
    (fd : FormData) (hfd : w.formDataResult = .ok fd)
    (hfile : FormData.get fd "file" = none) :
    ImageRoute.POST (some uid) w =
      ({ body := .errorMsg "File not found", status := 400 }, []) ∧
    (envPresent w.env.cloudName = true → envPresent w.env.apiKey = true →
      envPresent w.env.apiSecret = true →
      VideoRoute.POST u w =
        ({ body := .errorMsg "File not found", status := 400 }, [.dbDisconnect])) := by
  constructor
  · simp [ImageRoute.POST, ImageRoute.tryBlock, hfd, hfile, jsTruthyForm]
  · intro h1 h2 h3
    simp [VideoRoute.POST, VideoRoute.tryBlock, h1, h2, h3, hfd, hfile, jsTruthyForm]

/-- C6 amended witness: with identity and credentials present, a missing
`file` field yields 400 and a trace without an upload call on both paths. -/
theorem no_file_field_400_witness :
    ImageRoute.POST (some "user") wNoFile =
      ({ body := .errorMsg "File not found", status := 400 }, []) ∧
    VideoRoute.POST none wNoFile =
      ({ body := .errorMsg "File not found", status := 400 }, [.dbDisconnect]) :=
  ⟨(no_file_field_400 "user" none wNoFile [("title", .strVal "t")] rfl rfl).1,
   (no_file_field_400 "user" none wNoFile [("title", .strVal "t")] rfl rfl).2 rfl rfl rfl⟩

/-- C8 counterexample: a request whose `file` field is present but is a
non-empty string (not a binary payload) is answered 500 by the image
handler — not 400 as the claim states — though indeed no upload call
occurs. -/
theorem non_binary_file_counterexample :
    wStrFile.formDataResult = .ok [("file", .strVal "x")] ∧
    (ImageRoute.POST (some "user") wStrFile).1.status = 500 ∧
    ¬ (ImageRoute.POST (some "user") wStrFile).1.status = 400 ∧
    (ImageRoute.POST (some "user") wStrFile).2 = [] :=
  ⟨rfl, rfl, by decide, rfl⟩

/-- C8 amended: past the earlier checks (identity on the image path,
credentials on the video path), a string-valued `file` field never reaches
the upload; the empty string is falsy and is answered 400 `File not found`,
while a non-empty string passes the truthiness check, the buffering step
throws, and the response is the caught 500 `Upload image/video failed` —
in all cases the trace holds no upload call. -/
theorem non_binary_file_handling (uid : String) (u : Option String) (w : World)
    (fd : FormData) (s : String) (hfd : w.formDataResult = .ok fd)
    (hfile : FormData.get fd "file" = some (.strVal s)) :
    (s.isEmpty = true →
      ImageRoute.POST (some uid) w =
        ({ body := .errorMsg "File not found", status := 400 }, []) ∧
      (envPresent w.env.cloudName = true → envPresent w.env.apiKey = true →
        envPresent w.env.apiSecret = true →
        VideoRoute.POST u w =
          ({ body := .errorMsg "File not found", status := 400 }, [.dbDisconnect]))) ∧
    (s.isEmpty = false →
      ImageRoute.POST (some uid) w =
        ({ body := .errorMsg "Upload image failed", status := 500 }, []) ∧
      (envPresent w.env.cloudName = true → envPresent w.env.apiKey = true →
        envPresent w.env.apiSecret = true →
        VideoRoute.POST u w =
          ({ body := .errorMsg "Upload video failed", status := 500 }, [.dbDisconnect]))) := by
  constructor
  · intro hs
    constructor
    · simp [ImageRoute.POST, ImageRoute.tryBlock, hfd, hfile, jsTruthyForm, hs]
    · intro h1 h2 h3
      simp [VideoRoute.POST, VideoRoute.tryBlock, h1, h2, h3, hfd, hfile,
        jsTruthyForm, hs]
  · intro hs
    constructor
    · simp [ImageRoute.POST, ImageRoute.tryBlock, hfd, hfile, jsTruthyForm, hs,
        arrayBuffer]
    · intro h1 h2 h3
      simp [VideoRoute.POST, VideoRoute.tryBlock, h1, h2, h3, hfd, hfile,
        jsTruthyForm, hs, arrayBuffer]

/-- C8 amended witness: a non-empty string `file` value yields the caught
500 on both paths, with no upload call in the trace. -/
theorem non_binary_file_handling_witness :
    ImageRoute.POST (some "user") wStrFile =
      ({ body := .errorMsg "Upload image failed", status := 500 }, []) ∧
    VideoRoute.POST none wStrFile =
      ({ body := .errorMsg "Upload video failed", status := 500 }, [.dbDisconnect]) :=
  ⟨((non_binary_file_handling "user" none wStrFile [("file", .strVal "x")] "x"
      rfl rfl).2 rfl).1,
   ((non_binary_file_handling "user" none wStrFile [("file", .strVal "x")] "x"
      rfl rfl).2 rfl).2 rfl rfl rfl⟩

end CloudinarySaas
